import Mathlib

/-!
Shallow embedding of `src/model/initial_transcription.py`: the `iRNAP` class
(a transcribing RNA-polymerase state entity), its `SanityCheck` invariant
contract, its transition operations (`Translocate`, `ReverseTranslocate`,
`Pause`, `Backtrack`, `GrowRNA`) and its active-site lookup queries.

Python integers are modelled as `Int` (they can go negative in this code).
The Python fatal-error idioms are modelled as an error type: the `1/0`
crash on an illegal transition becomes `zeroDivisionError`, a failing
`assert` in `SanityCheck` becomes `assertionError`, an out-of-range string
index becomes `indexError`, and a lookup of an attribute that the class
does not define becomes `attributeError`.  Each Python method that mutates
`self` becomes a function `iRNAP → Except PyErr iRNAP`.
-/

/-- The failure modes of the Python code. -/
inductive PyErr where
  | zeroDivisionError
  | assertionError
  | indexError
  | attributeError
deriving DecidableEq, Repr

/-- The fields of class `iRNAP` (`__init__`).  `max_duplex_length` is the
private `__max_duplex_length`. -/
structure iRNAP where
  RNA_length : Int
  pre_translocated : Bool
  post_translocated : Bool
  paused : Bool
  backtracked : Bool
  iplus1_site : Int
  RNADNA_duplex_length : Int
  scrunched_DNA_size : Int
  free_5prime_RNA_length : Int
  max_duplex_length : Int
deriving DecidableEq, Repr

namespace iRNAP

/-- `iRNAP.SanityCheck`, as the conjunction of its `assert` statements, in
source order.  It returns `false` exactly when some assertion would raise
`AssertionError`. -/
def SanityCheck (s : iRNAP) : Bool :=
  (!s.backtracked || (!s.pre_translocated && !s.post_translocated && !s.paused)) &&
  (!s.paused || (!s.pre_translocated && !s.post_translocated && !s.backtracked)) &&
  (!s.post_translocated || (!s.pre_translocated && !s.backtracked && !s.paused)) &&
  (!s.pre_translocated || (!s.post_translocated && !s.backtracked && !s.paused)) &&
  decide (s.RNADNA_duplex_length ≤ s.RNA_length) &&
  decide (s.scrunched_DNA_size < s.RNA_length) &&
  decide (s.free_5prime_RNA_length < s.RNA_length) &&
  (decide (s.free_5prime_RNA_length ≤ 0) ||
    decide (s.free_5prime_RNA_length = s.RNA_length - s.RNADNA_duplex_length)) &&
  (decide (s.RNADNA_duplex_length ≤ s.max_duplex_length) ||
    decide (0 < s.free_5prime_RNA_length))

/-- The instance built by `iRNAP()` with all defaults (the constructor's
`SanityCheck` passes on it, see `default_SanityCheck` below). -/
def defaultState : iRNAP :=
  { RNA_length := 2
    pre_translocated := true
    post_translocated := false
    paused := false
    backtracked := false
    iplus1_site := 2
    RNADNA_duplex_length := 2
    scrunched_DNA_size := 0
    free_5prime_RNA_length := 0
    max_duplex_length := 10 }

/-- Python string indexing `l[i]`: a negative index counts from the end of
the string; an index out of range (after that adjustment) raises
`IndexError`. -/
def pyIndex (l : List Char) (i : Int) : Except PyErr Char :=
  if 0 ≤ i then
    if h : i.toNat < l.length then .ok (l.get ⟨i.toNat, h⟩) else .error .indexError
  else
    let j := (l.length : Int) + i
    if 0 ≤ j then
      if h : j.toNat < l.length then .ok (l.get ⟨j.toNat, h⟩) else .error .indexError
    else .error .indexError

/-- `iRNAP.GetActiveSiteDinucleotide`:
`return its[self.iplus1_site-1] + its[self.iplus1_site]`, with Python's
left-to-right evaluation (the first failing index raises). -/
def GetActiveSiteDinucleotide (s : iRNAP) (its : List Char) :
    Except PyErr (List Char) :=
  match pyIndex its (s.iplus1_site - 1) with
  | .error e => .error e
  | .ok c1 =>
    match pyIndex its s.iplus1_site with
    | .error e => .error e
    | .ok c2 => .ok [c1, c2]

/-- The method names the class `iRNAP` defines (Python attribute lookup is
case-sensitive, so only these exact spellings resolve on `self`). -/
def methodNames : List String :=
  ["__init__", "__repr__", "SanityCheck", "GetActiveSiteDinucleotide",
   "GetActiveSiteNucleotide", "ReverseTranslocate", "Translocate", "Pause",
   "CanBackTrack", "Backtrack", "CanGrow", "GrowRNA"]

/-- `iRNAP.GetActiveSiteNucleotide`:
`return self.get_active_site_dinucleotide(its)[-1]`.  The attribute
`get_active_site_dinucleotide` is resolved against the class's method
table; when absent, Python raises `AttributeError` before anything else
runs. -/
def GetActiveSiteNucleotide (s : iRNAP) (its : List Char) :
    Except PyErr Char :=
  if "get_active_site_dinucleotide" ∈ methodNames then
    match GetActiveSiteDinucleotide s its with
    | .error e => .error e
    | .ok d => pyIndex d (-1)
  else .error .attributeError

/-- The mutation block of `iRNAP.ReverseTranslocate` (the `else` branch):
sets `pre_translocated`, clears `post_translocated`, touches nothing else. -/
def reverseTranslocateEffect (s : iRNAP) : iRNAP :=
  { s with pre_translocated := true, post_translocated := false }

/-- `iRNAP.ReverseTranslocate`: `SanityCheck`; crash (`1/0`) if already
pre-translocated, else apply the mutation; `SanityCheck` again. -/
def ReverseTranslocate (s : iRNAP) : Except PyErr iRNAP :=
  if !SanityCheck s then .error .assertionError
  else if s.pre_translocated then .error .zeroDivisionError
  else if SanityCheck (reverseTranslocateEffect s) then
    .ok (reverseTranslocateEffect s)
  else .error .assertionError

/-- The mutation block of `iRNAP.Translocate`: clears `pre_translocated`,
sets `post_translocated`. -/
def translocateEffect (s : iRNAP) : iRNAP :=
  { s with pre_translocated := false, post_translocated := true }

/-- `iRNAP.Translocate`: `SanityCheck`; crash (`1/0`) if already
post-translocated, else apply the mutation; `SanityCheck` again. -/
def Translocate (s : iRNAP) : Except PyErr iRNAP :=
  if !SanityCheck s then .error .assertionError
  else if s.post_translocated then .error .zeroDivisionError
  else if SanityCheck (translocateEffect s) then
    .ok (translocateEffect s)
  else .error .assertionError

/-- The mutation block of `iRNAP.Pause`: sets `paused`, clears
`pre_translocated`. -/
def pauseEffect (s : iRNAP) : iRNAP :=
  { s with paused := true, pre_translocated := false }

/-- `iRNAP.Pause`: `SanityCheck`; crash if already paused; crash if not
pre-translocated; else apply the mutation; `SanityCheck` again. -/
def Pause (s : iRNAP) : Except PyErr iRNAP :=
  if !SanityCheck s then .error .assertionError
  else if s.paused then .error .zeroDivisionError
  else if s.pre_translocated then
    if SanityCheck (pauseEffect s) then .ok (pauseEffect s)
    else .error .assertionError
  else .error .zeroDivisionError

/-- The condition computed by `iRNAP.CanBackTrack` (its entry
`SanityCheck` is modelled at its call sites). -/
def CanBackTrack (s : iRNAP) : Bool :=
  s.paused || s.backtracked

/-- The mutation block of `iRNAP.Backtrack` (the `if` branch), statement by
statement: flag flip when paused, then the decrements, the duplex decrement
guarded by `RNADNA_duplex_length <= __max_duplex_length`, and the free-end
decrement guarded by `free_5prime_RNA_length > 0`. -/
def backtrackEffect (s : iRNAP) : iRNAP :=
  let s1 := if s.paused then { s with paused := false, backtracked := true } else s
  let s2 := { s1 with iplus1_site := s1.iplus1_site - 1,
                      scrunched_DNA_size := s1.scrunched_DNA_size - 1 }
  let s3 := if s2.RNADNA_duplex_length ≤ s2.max_duplex_length then
              { s2 with RNADNA_duplex_length := s2.RNADNA_duplex_length - 1 }
            else s2
  if 0 < s3.free_5prime_RNA_length then
    { s3 with free_5prime_RNA_length := s3.free_5prime_RNA_length - 1 }
  else s3

/-- `iRNAP.Backtrack`: `SanityCheck`; crash (`1/0`) unless `CanBackTrack`;
else apply the mutation; `SanityCheck` again. -/
def Backtrack (s : iRNAP) : Except PyErr iRNAP :=
  if !SanityCheck s then .error .assertionError
  else if CanBackTrack s then
    if SanityCheck (backtrackEffect s) then .ok (backtrackEffect s)
    else .error .assertionError
  else .error .zeroDivisionError

/-- `iRNAP.CanGrow`, verbatim:
`excluded_from_growing = pre_translocated and backtracked and paused`;
return `False` iff `excluded_from_growing and post_translocated`.
It does not run `SanityCheck`. -/
def CanGrow (s : iRNAP) : Bool :=
  let excluded_from_growing := s.pre_translocated && s.backtracked && s.paused
  if excluded_from_growing && s.post_translocated then false else true

/-- The mutation block of `iRNAP.GrowRNA` (the `if` branch): increment
`iplus1_site`, `RNA_length`, `scrunched_DNA_size`; grow the duplex 1:1
while `RNA_length <= __max_duplex_length`; and when the duplex now equals
`__max_duplex_length`, grow the free 5' end. -/
def growEffect (s : iRNAP) : iRNAP :=
  let s1 := { s with iplus1_site := s.iplus1_site + 1,
                     RNA_length := s.RNA_length + 1,
                     scrunched_DNA_size := s.scrunched_DNA_size + 1 }
  let s2 := if s1.RNA_length ≤ s1.max_duplex_length then
              { s1 with RNADNA_duplex_length := s1.RNA_length }
            else s1
  if s2.RNADNA_duplex_length = s2.max_duplex_length then
    { s2 with free_5prime_RNA_length := s2.free_5prime_RNA_length + 1 }
  else s2

/-- `iRNAP.GrowRNA`: `SanityCheck`; crash (`1/0`, "Must be
post-translocated to grow RNA!") unless `CanGrow`; else apply the
mutation; `SanityCheck` again. -/
def GrowRNA (s : iRNAP) : Except PyErr iRNAP :=
  if !SanityCheck s then .error .assertionError
  else if CanGrow s then
    if SanityCheck (growEffect s) then .ok (growEffect s)
    else .error .assertionError
  else .error .zeroDivisionError

/-- `n` consecutive `GrowRNA` calls, each propagating a crash. -/
def growN : Nat → iRNAP → Except PyErr iRNAP
  | 0, s => .ok s
  | n + 1, s => (GrowRNA s).bind (growN n)

/-- One successful transition of the entity: some method mutated the state
and both its surrounding `SanityCheck`s passed. -/
inductive Step : iRNAP → iRNAP → Prop where
  | translocate {s t : iRNAP} : Translocate s = .ok t → Step s t
  | reverseTranslocate {s t : iRNAP} : ReverseTranslocate s = .ok t → Step s t
  | pause {s t : iRNAP} : Pause s = .ok t → Step s t
  | backtrack {s t : iRNAP} : Backtrack s = .ok t → Step s t
  | growRNA {s t : iRNAP} : GrowRNA s = .ok t → Step s t

/-- The states reachable from the default-constructed entity by successful
transitions. -/
inductive Reachable : iRNAP → Prop where
  | init : Reachable defaultState
  | step {s t : iRNAP} : Reachable s → Step s t → Reachable t

/-- The mutual-exclusion invariant of spec section 3 on the four mode
flags: at most one of `pre_translocated`, `post_translocated`, `paused`,
`backtracked` is true. -/
def mutuallyExclusiveModes (s : iRNAP) : Bool :=
  (!s.pre_translocated || (!s.post_translocated && !s.paused && !s.backtracked)) &&
  (!s.post_translocated || (!s.paused && !s.backtracked)) &&
  (!s.paused || !s.backtracked)

/-- The valid state produced by seven consecutive `GrowRNA` calls from the
default state: one step short of duplex saturation. -/
def preSaturationState : iRNAP :=
  { RNA_length := 9
    pre_translocated := true
    post_translocated := false
    paused := false
    backtracked := false
    iplus1_site := 9
    RNADNA_duplex_length := 9
    scrunched_DNA_size := 7
    free_5prime_RNA_length := 0
    max_duplex_length := 10 }

/-- The state produced by `Pause` from the default state. -/
def pausedDefault : iRNAP :=
  { RNA_length := 2
    pre_translocated := false
    post_translocated := false
    paused := true
    backtracked := false
    iplus1_site := 2
    RNADNA_duplex_length := 2
    scrunched_DNA_size := 0
    free_5prime_RNA_length := 0
    max_duplex_length := 10 }

/-- The state produced by `Translocate` from the default state: a valid
post-translocated state. -/
def postDefault : iRNAP :=
  { RNA_length := 2
    pre_translocated := false
    post_translocated := true
    paused := false
    backtracked := false
    iplus1_site := 2
    RNADNA_duplex_length := 2
    scrunched_DNA_size := 0
    free_5prime_RNA_length := 0
    max_duplex_length := 10 }

/-- The state produced by `Backtrack` from `pausedDefault`: note its
negative `scrunched_DNA_size`. -/
def backtrackedDefault : iRNAP :=
  { RNA_length := 2
    pre_translocated := false
    post_translocated := false
    paused := false
    backtracked := true
    iplus1_site := 1
    RNADNA_duplex_length := 1
    scrunched_DNA_size := -1
    free_5prime_RNA_length := 0
    max_duplex_length := 10 }

/-! ### Characterisations of the transition operations -/

lemma Translocate_ok_iff {s t : iRNAP} :
    Translocate s = .ok t ↔
      SanityCheck s = true ∧ s.post_translocated = false ∧
      SanityCheck (translocateEffect s) = true ∧ t = translocateEffect s := by
  unfold Translocate
  rcases hs : SanityCheck s <;> rcases hp : s.post_translocated <;>
    rcases he : SanityCheck (translocateEffect s) <;> simp [hs, hp, he, eq_comm]

lemma ReverseTranslocate_ok_iff {s t : iRNAP} :
    ReverseTranslocate s = .ok t ↔
      SanityCheck s = true ∧ s.pre_translocated = false ∧
      SanityCheck (reverseTranslocateEffect s) = true ∧
      t = reverseTranslocateEffect s := by
  unfold ReverseTranslocate
  rcases hs : SanityCheck s <;> rcases hp : s.pre_translocated <;>
    rcases he : SanityCheck (reverseTranslocateEffect s) <;>
      simp [hs, hp, he, eq_comm]

lemma Pause_ok_iff {s t : iRNAP} :
    Pause s = .ok t ↔
      SanityCheck s = true ∧ s.paused = false ∧ s.pre_translocated = true ∧
      SanityCheck (pauseEffect s) = true ∧ t = pauseEffect s := by
  unfold Pause
  rcases hs : SanityCheck s <;> rcases hp : s.paused <;>
    rcases hq : s.pre_translocated <;> rcases he : SanityCheck (pauseEffect s) <;>
      simp [hs, hp, hq, he, eq_comm]

lemma Backtrack_ok_iff {s t : iRNAP} :
    Backtrack s = .ok t ↔
      SanityCheck s = true ∧ CanBackTrack s = true ∧
      SanityCheck (backtrackEffect s) = true ∧ t = backtrackEffect s := by
  unfold Backtrack
  rcases hs : SanityCheck s <;> rcases hc : CanBackTrack s <;>
    rcases he : SanityCheck (backtrackEffect s) <;> simp [hs, hc, he, eq_comm]

lemma GrowRNA_ok_iff {s t : iRNAP} :
    GrowRNA s = .ok t ↔
      SanityCheck s = true ∧ CanGrow s = true ∧
      SanityCheck (growEffect s) = true ∧ t = growEffect s := by
  unfold GrowRNA
  rcases hs : SanityCheck s <;> rcases hc : CanGrow s <;>
    rcases he : SanityCheck (growEffect s) <;> simp [hs, hc, he, eq_comm]

/-- Every successful transition lands in a state accepted by `SanityCheck`
(the trailing `self.SanityCheck()` of each method). -/
lemma Step.sanity {s t : iRNAP} (h : Step s t) : SanityCheck t = true := by
  cases h with
  | translocate h =>
      obtain ⟨-, -, he, rfl⟩ := Translocate_ok_iff.mp h
      exact he
  | reverseTranslocate h =>
      obtain ⟨-, -, he, rfl⟩ := ReverseTranslocate_ok_iff.mp h
      exact he
  | pause h =>
      obtain ⟨-, -, -, he, rfl⟩ := Pause_ok_iff.mp h
      exact he
  | backtrack h =>
      obtain ⟨-, -, he, rfl⟩ := Backtrack_ok_iff.mp h
      exact he
  | growRNA h =>
      obtain ⟨-, -, he, rfl⟩ := GrowRNA_ok_iff.mp h
      exact he

/-- `SanityCheck` as the conjunction of its assertions, read as
propositions. -/
lemma sanity_iff (s : iRNAP) :
    SanityCheck s = true ↔
      (s.backtracked = true →
        s.pre_translocated = false ∧ s.post_translocated = false ∧
        s.paused = false) ∧
      (s.paused = true →
        s.pre_translocated = false ∧ s.post_translocated = false ∧
        s.backtracked = false) ∧
      (s.post_translocated = true →
        s.pre_translocated = false ∧ s.backtracked = false ∧
        s.paused = false) ∧
      (s.pre_translocated = true →
        s.post_translocated = false ∧ s.backtracked = false ∧
        s.paused = false) ∧
      s.RNADNA_duplex_length ≤ s.RNA_length ∧
      s.scrunched_DNA_size < s.RNA_length ∧
      s.free_5prime_RNA_length < s.RNA_length ∧
      (0 < s.free_5prime_RNA_length →
        s.free_5prime_RNA_length = s.RNA_length - s.RNADNA_duplex_length) ∧
      (s.max_duplex_length < s.RNADNA_duplex_length →
        0 < s.free_5prime_RNA_length) := by
  cases hb : s.backtracked <;> cases hp : s.paused <;>
    cases hq : s.post_translocated <;> cases hr : s.pre_translocated <;>
      simp [SanityCheck, hb, hp, hq, hr] <;> omega

lemma scrunched_lt_of_sanity {s : iRNAP} (h : SanityCheck s = true) :
    s.scrunched_DNA_size < s.RNA_length :=
  ((sanity_iff s).mp h).2.2.2.2.2.1

lemma Reachable_growN {n : Nat} {s t : iRNAP} (hs : Reachable s)
    (h : growN n s = .ok t) : Reachable t := by
  induction n generalizing s with
  | zero =>
      unfold growN at h
      cases h
      exact hs
  | succ n ih =>
      unfold growN at h
      rcases hg : GrowRNA s with e | u <;> rw [hg] at h
      · simp [Except.bind] at h
      · exact ih (hs.step (Step.growRNA hg)) (by simpa [Except.bind] using h)

/-- The literal `CanGrow` condition can never exclude growth when the four
mode flags are mutually exclusive. -/
lemma canGrow_of_mutex {s : iRNAP} (h : mutuallyExclusiveModes s = true) :
    CanGrow s = true := by
  obtain ⟨rna, pre, post, pau, bt, ip, dup, scr, fr, mx⟩ := s
  cases pre <;> cases post <;> cases pau <;> cases bt <;>
    simp_all [mutuallyExclusiveModes, CanGrow]

lemma mutex_of_sanity {s : iRNAP} (h : SanityCheck s = true) :
    mutuallyExclusiveModes s = true := by
  obtain ⟨rna, pre, post, pau, bt, ip, dup, scr, fr, mx⟩ := s
  cases pre <;> cases post <;> cases pau <;> cases bt <;>
    simp_all [SanityCheck, mutuallyExclusiveModes]

/-! ### Claims -/

/-- Claim C1: the spec says that, driving the default state with repeated
`GrowRNA`, the call on which the duplex first reaches 10 completes in a
valid state with `free_5prime_RNA_length = 1`.  In the code that call (the
8th) instead fails its own `SanityCheck`: it sets the duplex to 10 and the
free end to 1, but then the assertion
`free_5prime_RNA_length == RNA_length - RNADNA_duplex_length` (1 = 0)
raises, so no state with duplex 10 is ever completed.  The first seven
calls succeed and leave the duplex at 9. -/
theorem C1_saturation_call_fails_sanity :
    growN 7 defaultState = .ok preSaturationState ∧
    SanityCheck preSaturationState = true ∧
    preSaturationState.RNADNA_duplex_length = 9 ∧
    GrowRNA preSaturationState = .error .assertionError ∧
    growN 8 defaultState = .error .assertionError :=
  ⟨rfl, rfl, rfl, rfl, rfl⟩

/-- Claim C2: the spec says every legal transition from a state satisfying
the section-3 invariants ends in a state satisfying them again.  The code
violates this: `preSaturationState` is reachable from the default state by
seven legal `GrowRNA` calls and satisfies `SanityCheck`, and `GrowRNA` is
legal there (`CanGrow` is true), yet the call aborts with an assertion
failure instead of completing in a valid state. -/
theorem C2_legal_transition_violates_invariants :
    Reachable preSaturationState ∧
    SanityCheck preSaturationState = true ∧
    CanGrow preSaturationState = true ∧
    GrowRNA preSaturationState = .error .assertionError :=
  ⟨Reachable_growN Reachable.init
      (show growN 7 defaultState = .ok preSaturationState from rfl),
    rfl, rfl, rfl⟩

/-- Claim C3: the spec says `GetActiveSiteNucleotide` returns the second
character of the dinucleotide rather than failing.  In the code it fails
unconditionally: the body looks up `self.get_active_site_dinucleotide`,
but the class only defines `GetActiveSiteDinucleotide` (Python attribute
lookup is case-sensitive), so every call raises `AttributeError` —
even on an input where the dinucleotide lookup itself succeeds. -/
theorem C3_nucleotide_lookup_attribute_error :
    (∀ (s : iRNAP) (its : List Char),
      GetActiveSiteNucleotide s its = .error .attributeError) ∧
    GetActiveSiteDinucleotide defaultState "ATGCGA".toList =
      .ok ['T', 'G'] :=
  ⟨fun _ _ => rfl, rfl⟩

/-- Claim C5, counterexample: the spec's data model calls
`scrunched_DNA_size` a non-negative integer, but the state reached from
the default by the legal calls `Pause` then `Backtrack` has
`scrunched_DNA_size = -1`. -/
theorem C5_counterexample_negative_scrunched :
    Reachable backtrackedDefault ∧
    backtrackedDefault.scrunched_DNA_size = -1 :=
  ⟨Reachable.step (Reachable.step Reachable.init (Step.pause rfl))
      (Step.backtrack rfl),
    rfl⟩

/-- Claim C5 (amended): `scrunched_DNA_size` is an integer that may go
negative in reachable states; the invariant the code actually maintains in
every reachable state is `scrunched_DNA_size < RNA_length`. -/
theorem C5_reachable_scrunched_lt_rna (s : iRNAP) (h : Reachable s) :
    s.scrunched_DNA_size < s.RNA_length := by
  induction h with
  | init => decide
  | step _ hstep _ => exact scrunched_lt_of_sanity hstep.sanity

theorem C5_witness :
    defaultState.scrunched_DNA_size < defaultState.RNA_length :=
  C5_reachable_scrunched_lt_rna defaultState Reachable.init

/-- Claim C6: under the mutual-exclusion invariant on the four mode flags,
`CanGrow` always returns true (its exclusion condition needs three of the
mutually exclusive flags true at once), and hence `GrowRNA` can never take
its `1/0` fatal branch ("Must be post-translocated to grow RNA!"). -/
theorem C6_cangrow_always_true (s : iRNAP)
    (h : mutuallyExclusiveModes s = true) :
    CanGrow s = true ∧ GrowRNA s ≠ .error .zeroDivisionError := by
  have hc := canGrow_of_mutex h
  refine ⟨hc, ?_⟩
  unfold GrowRNA
  rw [hc]
  split
  · simp
  · simp only [if_true]
    split <;> simp

theorem C6_witness :
    CanGrow defaultState = true ∧
    GrowRNA defaultState ≠ .error .zeroDivisionError :=
  C6_cangrow_always_true defaultState rfl

lemma pyIndex_err_of_len_le {l : List Char} {i : Int} (h0 : 0 ≤ i)
    (h : (l.length : Int) ≤ i) : pyIndex l i = .error .indexError := by
  simp only [pyIndex]
  rw [if_pos h0, dif_neg (by omega)]

lemma pyIndex_err_of_neg {l : List Char} {i : Int}
    (h : (l.length : Int) + i < 0) : pyIndex l i = .error .indexError := by
  simp only [pyIndex]
  rw [if_neg (by omega), if_neg (by omega)]

lemma pyIndex_ok_of_lt {l : List Char} {i : Int} (h0 : 0 ≤ i)
    (h : i < (l.length : Int)) : ∃ c, pyIndex l i = .ok c := by
  simp only [pyIndex]
  rw [if_pos h0, dif_pos (by omega)]
  exact ⟨_, rfl⟩

/-- Claim C7: on any sequence shorter than `iplus1_site + 1` characters,
`GetActiveSiteDinucleotide` raises an out-of-range error; within that
scope it never succeeds, in particular never by Python's negative-index
wrap-around. -/
theorem C7_short_sequence_index_error (s : iRNAP) (its : List Char)
    (h : (its.length : Int) < s.iplus1_site + 1) :
    GetActiveSiteDinucleotide s its = .error .indexError := by
  unfold GetActiveSiteDinucleotide
  by_cases h1 : 0 ≤ s.iplus1_site - 1
  · by_cases h2 : s.iplus1_site - 1 < (its.length : Int)
    · obtain ⟨c, hc⟩ := pyIndex_ok_of_lt h1 h2
      simp only [hc]
      simp only [pyIndex_err_of_len_le (show (0 : Int) ≤ s.iplus1_site by omega)
        (show (its.length : Int) ≤ s.iplus1_site by omega)]
    · simp only [pyIndex_err_of_len_le h1
        (show (its.length : Int) ≤ s.iplus1_site - 1 by omega)]
  · simp only [pyIndex_err_of_neg
      (show (its.length : Int) + (s.iplus1_site - 1) < 0 by omega)]

theorem C7_witness :
    ((['A', 'T'].length : Int) < defaultState.iplus1_site + 1) ∧
    GetActiveSiteDinucleotide defaultState ['A', 'T'] =
      .error .indexError :=
  ⟨by decide, C7_short_sequence_index_error defaultState ['A', 'T'] (by decide)⟩

/-- Claim C4, counterexample: `pausedDefault` is a valid state that is not
pre-translocated, yet `ReverseTranslocate` does not succeed from it: since
the method clears only `post_translocated`, the paused flag survives next
to the newly set `pre_translocated` flag and the trailing `SanityCheck`
aborts. -/
theorem C4_counterexample_paused_reverse_fails :
    SanityCheck pausedDefault = true ∧
    pausedDefault.pre_translocated = false ∧
    ReverseTranslocate pausedDefault = .error .assertionError :=
  ⟨rfl, rfl, rfl⟩

/-- Claim C4 (amended): `ReverseTranslocate` succeeds exactly from valid
Post-translocated states, landing pre-translocated with the other flags
clear in a valid state; from a valid Paused or Backtracked state it fails
fatally with an invariant violation (only `post_translocated` is cleared,
so the old flag survives); when already Pre-translocated it fails fatally
with the `1/0` caller-error crash. -/
theorem C4_reverse_translocate_amended (s : iRNAP)
    (h : SanityCheck s = true) :
    (s.post_translocated = true →
      ReverseTranslocate s = .ok (reverseTranslocateEffect s) ∧
      (reverseTranslocateEffect s).pre_translocated = true ∧
      (reverseTranslocateEffect s).post_translocated = false ∧
      (reverseTranslocateEffect s).paused = false ∧
      (reverseTranslocateEffect s).backtracked = false ∧
      SanityCheck (reverseTranslocateEffect s) = true) ∧
    (s.pre_translocated = true →
      ReverseTranslocate s = .error .zeroDivisionError) ∧
    ((s.paused = true ∨ s.backtracked = true) →
      ReverseTranslocate s = .error .assertionError) := by
  have hprop := (sanity_iff s).mp h
  refine ⟨?_, ?_, ?_⟩
  · intro hq
    obtain ⟨hpre, hbt, hpau⟩ := hprop.2.2.1 hq
    have he : SanityCheck (reverseTranslocateEffect s) = true := by
      rw [sanity_iff]
      obtain ⟨-, -, -, -, h5, h6, h7, h8, h9⟩ := hprop
      exact ⟨fun h2 => absurd h2 (by simp [reverseTranslocateEffect, hbt]),
        fun h2 => absurd h2 (by simp [reverseTranslocateEffect, hpau]),
        fun h2 => absurd h2 (by simp [reverseTranslocateEffect]),
        fun _ => ⟨rfl, hbt, hpau⟩, h5, h6, h7, h8, h9⟩
    exact ⟨ReverseTranslocate_ok_iff.mpr ⟨h, hpre, he, rfl⟩,
      rfl, rfl, hpau, hbt, he⟩
  · intro hp
    unfold ReverseTranslocate
    rw [h, hp]
    rfl
  · intro hpb
    have hpre : s.pre_translocated = false := by
      rcases hpb with hpa | hbt
      · exact (hprop.2.1 hpa).1
      · exact (hprop.1 hbt).1
    have he : SanityCheck (reverseTranslocateEffect s) = false := by
      rcases hpb with hpa | hbt
      · rcases hsc : SanityCheck (reverseTranslocateEffect s) with _ | _
        · rfl
        · obtain ⟨hpre2, -, -⟩ :=
            ((sanity_iff (reverseTranslocateEffect s)).mp hsc).2.1
              (show (reverseTranslocateEffect s).paused = true from hpa)
          exact absurd hpre2 (by simp [reverseTranslocateEffect])
      · rcases hsc : SanityCheck (reverseTranslocateEffect s) with _ | _
        · rfl
        · obtain ⟨hpre2, -, -⟩ :=
            ((sanity_iff (reverseTranslocateEffect s)).mp hsc).1
              (show (reverseTranslocateEffect s).backtracked = true from hbt)
          exact absurd hpre2 (by simp [reverseTranslocateEffect])
    unfold ReverseTranslocate
    rw [h, hpre, he]
    rfl

theorem C4_witness :
    ReverseTranslocate postDefault =
      .ok (reverseTranslocateEffect postDefault) ∧
    SanityCheck (reverseTranslocateEffect postDefault) = true ∧
    ReverseTranslocate pausedDefault = .error .assertionError :=
  ⟨((C4_reverse_translocate_amended postDefault rfl).1 rfl).1,
    ((C4_reverse_translocate_amended postDefault rfl).1 rfl).2.2.2.2.2,
    (C4_reverse_translocate_amended pausedDefault rfl).2.2 (Or.inl rfl)⟩

/-- Claim C9: from any valid Pre-translocated state, `Translocate`
followed by `ReverseTranslocate` succeeds and returns the entity to
exactly the original state (mode flags back to pre-translocated, every
other field untouched). -/
theorem C9_translocate_reverse_identity (s : iRNAP)
    (h : SanityCheck s = true) (hp : s.pre_translocated = true) :
    (Translocate s).bind ReverseTranslocate = .ok s := by
  have hprop := (sanity_iff s).mp h
  obtain ⟨hq, hbt, hpau⟩ := hprop.2.2.2.1 hp
  have he : SanityCheck (translocateEffect s) = true := by
    rw [sanity_iff]
    obtain ⟨-, -, -, -, h5, h6, h7, h8, h9⟩ := hprop
    exact ⟨fun h2 => absurd h2 (by simp [translocateEffect, hbt]),
      fun h2 => absurd h2 (by simp [translocateEffect, hpau]),
      fun _ => ⟨rfl, hbt, hpau⟩,
      fun h2 => absurd h2 (by simp [translocateEffect]),
      h5, h6, h7, h8, h9⟩
  have h3 : reverseTranslocateEffect (translocateEffect s) = s := by
    obtain ⟨rna, pre, post, pau, bt, ip, dup, scr, fr, mx⟩ := s
    simp only at hp hq
    subst hp
    subst hq
    rfl
  have h1 : Translocate s = .ok (translocateEffect s) :=
    Translocate_ok_iff.mpr ⟨h, hq, he, rfl⟩
  have h2 : ReverseTranslocate (translocateEffect s) = .ok s := by
    rw [show (Except.ok s : Except PyErr iRNAP) =
      .ok (reverseTranslocateEffect (translocateEffect s)) from by rw [h3]]
    refine ReverseTranslocate_ok_iff.mpr ⟨he, rfl, ?_, rfl⟩
    rw [h3]
    exact h
  rw [h1]
  exact h2

theorem C9_witness :
    (Translocate defaultState).bind ReverseTranslocate =
      .ok defaultState :=
  C9_translocate_reverse_identity defaultState rfl rfl

/-- `GrowRNA` leaves the four mode flags untouched. -/
lemma growEffect_flags (s : iRNAP) :
    (growEffect s).pre_translocated = s.pre_translocated ∧
    (growEffect s).post_translocated = s.post_translocated ∧
    (growEffect s).paused = s.paused ∧
    (growEffect s).backtracked = s.backtracked := by
  simp only [growEffect]
  split <;> split <;> exact ⟨rfl, rfl, rfl, rfl⟩

/-- When a successful `GrowRNA` call ends with the duplex strictly below
`max_duplex_length`, the free 5' end it leaves behind is not positive (its
own exit `SanityCheck` forces this). -/
lemma grow_ok_free_nonpos {s t : iRNAP} (h : GrowRNA s = .ok t)
    (hd : t.RNADNA_duplex_length < t.max_duplex_length) :
    t.free_5prime_RNA_length ≤ 0 := by
  obtain ⟨hs, -, ht, rfl⟩ := GrowRNA_ok_iff.mp h
  rw [sanity_iff] at hs ht
  obtain ⟨-, -, -, -, -, -, -, hf0, -⟩ := hs
  obtain ⟨-, -, -, -, -, -, -, hf1, -⟩ := ht
  simp only [growEffect] at hd hf1 ⊢
  by_cases hA : s.RNA_length + 1 ≤ s.max_duplex_length
  · simp only [if_pos hA] at hd hf1 ⊢
    by_cases hB : s.RNA_length + 1 = s.max_duplex_length
    · simp only [if_pos hB] at hd hf1 ⊢
      omega
    · simp only [if_neg hB] at hd hf1 ⊢
      omega
  · simp only [if_neg hA] at hd hf1 ⊢
    by_cases hB : s.RNADNA_duplex_length = s.max_duplex_length
    · simp only [if_pos hB] at hd hf1 ⊢
      omega
    · simp only [if_neg hB] at hd hf1 ⊢
      omega

/-- `Backtrack` from a valid paused state whose duplex is not above the
maximum and whose free 5' end is not positive: it decrements
`iplus1_site`, `scrunched_DNA_size` and `RNADNA_duplex_length` by one,
clears `paused`, sets `backtracked`, and touches nothing else. -/
lemma backtrack_from_paused {s : iRNAP} (hs : SanityCheck s = true)
    (hp : s.paused = true) (hd : s.RNADNA_duplex_length ≤ s.max_duplex_length)
    (hf : s.free_5prime_RNA_length ≤ 0) :
    Backtrack s = .ok
      { s with paused := false, backtracked := true,
               iplus1_site := s.iplus1_site - 1,
               scrunched_DNA_size := s.scrunched_DNA_size - 1,
               RNADNA_duplex_length := s.RNADNA_duplex_length - 1 } := by
  have hprop := (sanity_iff s).mp hs
  obtain ⟨hpre, hq, hbt⟩ := hprop.2.1 hp
  have heq : backtrackEffect s =
      { s with paused := false, backtracked := true,
               iplus1_site := s.iplus1_site - 1,
               scrunched_DNA_size := s.scrunched_DNA_size - 1,
               RNADNA_duplex_length := s.RNADNA_duplex_length - 1 } := by
    simp only [backtrackEffect, hp, if_true]
    rw [if_pos hd, if_neg (by omega : ¬(0 : Int) < s.free_5prime_RNA_length)]
  have he : SanityCheck (backtrackEffect s) = true := by
    rw [heq, sanity_iff]
    obtain ⟨-, -, -, -, h5, h6, h7, -, -⟩ := hprop
    refine ⟨fun _ => ⟨hpre, hq, rfl⟩, ?_, ?_, ?_, ?_, ?_, ?_, ?_, ?_⟩ <;>
      simp_all <;> omega
  exact Backtrack_ok_iff.mpr ⟨hs, by simp [CanBackTrack, hp], he, heq.symm⟩

/-- Claim C8: from a paused state produced by `Pause` right after a
successful `GrowRNA` call, with the duplex strictly below
`max_duplex_length`, `Backtrack` succeeds and decrements `iplus1_site`,
`scrunched_DNA_size` and `RNADNA_duplex_length` each by exactly one,
clearing `paused` and setting `backtracked` while leaving every other
field unchanged. -/
theorem C8_backtrack_undoes_grow (s0 s1 s2 : iRNAP)
    (h1 : GrowRNA s0 = .ok s1) (h2 : Pause s1 = .ok s2)
    (hd : s2.RNADNA_duplex_length < s2.max_duplex_length) :
    Backtrack s2 = .ok
      { s2 with paused := false, backtracked := true,
                iplus1_site := s2.iplus1_site - 1,
                scrunched_DNA_size := s2.scrunched_DNA_size - 1,
                RNADNA_duplex_length := s2.RNADNA_duplex_length - 1 } := by
  obtain ⟨-, -, -, hs2, rfl⟩ := Pause_ok_iff.mp h2
  have hd1 : s1.RNADNA_duplex_length < s1.max_duplex_length := hd
  have hf : s1.free_5prime_RNA_length ≤ 0 := grow_ok_free_nonpos h1 hd1
  exact backtrack_from_paused hs2 rfl (le_of_lt hd) hf

theorem C8_witness :
    Backtrack (pauseEffect (growEffect defaultState)) = .ok
      { pauseEffect (growEffect defaultState) with
        paused := false, backtracked := true,
        iplus1_site := (pauseEffect (growEffect defaultState)).iplus1_site - 1,
        scrunched_DNA_size :=
          (pauseEffect (growEffect defaultState)).scrunched_DNA_size - 1,
        RNADNA_duplex_length :=
          (pauseEffect (growEffect defaultState)).RNADNA_duplex_length - 1 } :=
  C8_backtrack_undoes_grow defaultState (growEffect defaultState)
    (pauseEffect (growEffect defaultState)) rfl rfl (by decide)

/-- Claim C10, counterexample: the claim says `GrowRNA` succeeds from any
valid state, but from the valid (pre-translocated, reachable) state
`preSaturationState` the call aborts with an invariant violation. -/
theorem C10_counterexample_grow_fails_from_valid :
    SanityCheck preSaturationState = true ∧
    GrowRNA preSaturationState = .error .assertionError :=
  ⟨rfl, rfl⟩

/-- Claim C10 (amended): `GrowRNA` never changes any of the four mode
flags; from a valid state it can never take its `1/0` fatal branch
(whether it completes does not depend on the translocation mode — in
particular pre-translocation is fine, despite the diagnostic message
demanding post-translocation); and after every successful call the mode
equals the mode before.  It does not, however, succeed from *every* valid
state: it can abort on its exit `SanityCheck`. -/
theorem C10_grow_frame_amended (s : iRNAP) (h : SanityCheck s = true) :
    GrowRNA s ≠ .error .zeroDivisionError ∧
    ∀ t : iRNAP, GrowRNA s = .ok t →
      t.pre_translocated = s.pre_translocated ∧
      t.post_translocated = s.post_translocated ∧
      t.paused = s.paused ∧
      t.backtracked = s.backtracked := by
  have hc := canGrow_of_mutex (mutex_of_sanity h)
  constructor
  · unfold GrowRNA
    rw [hc]
    split
    · simp
    · simp only [if_true]
      split <;> simp
  · intro t ht
    obtain ⟨-, -, -, rfl⟩ := GrowRNA_ok_iff.mp ht
    exact growEffect_flags s

theorem C10_witness :
    GrowRNA defaultState ≠ .error .zeroDivisionError ∧
    (growEffect defaultState).pre_translocated =
      defaultState.pre_translocated :=
  ⟨(C10_grow_frame_amended defaultState rfl).1,
    ((C10_grow_frame_amended defaultState rfl).2
      (growEffect defaultState) rfl).1⟩

end iRNAP
